import Mathlib

/-!
Shallow embedding of the upload/preview/result controller in
`frontend/assets/js/app.js` (YourDr repository).

Modelling conventions:
* JSON values are an inductive tree `Json`; JavaScript numbers are modelled
  as exact rationals `ℚ` (the decimal literals appearing in the program and
  its spec are exactly representable, so `toFixed` agrees with the IEEE
  computation on them).  `JSON.stringify`/`JSON.parse` of localStorage is
  modelled at the tree level: the stored value is the JSON tree, and a
  re-read parse returns the same tree.
* The DOM is a record `DomState` holding, for each element the script
  touches, whether it carries the `hidden` class, its text content, its
  CSS classes, and the progress-bar widths (in percent units, as rationals;
  `animateProgressBar` is recorded as the pair of the immediate width `0`
  and the width set once the timeout fires).
* Network I/O is an oracle: a `World` value fixes the outcome of the
  `fetch` to `/predict` (rejection, or a status code plus an optionally
  parseable body), whether the `localStorage.setItem` call throws, and the
  timestamp.  Every `fetch` call that is started is appended to
  `DomState.requests`, so "no network request is issued" is the statement
  that this list is unchanged.
* JavaScript property access `a.b` throws on `undefined`/`null` receivers
  and yields `undefined` on absent keys; `n.toFixed(1)` throws unless the
  receiver is a number.  Thrown exceptions are modelled with
  `Except Unit`/explicit "threw" flags, caught exactly where the source
  catches them.
-/

/-- JSON value trees (the shapes `JSON.parse` can return). -/
inductive Json where
  | null
  | bool (b : Bool)
  | str (s : String)
  | num (q : ℚ)
  | obj (fields : List (String × Json))
deriving Repr

/-- First-match association lookup, as JavaScript object keys are unique and
property access returns the stored value or `undefined` (here `none`). -/
def jsonLookup (k : String) : List (String × Json) → Option Json
  | [] => none
  | (k', v) :: rest => if k' = k then some v else jsonLookup k rest

/-- JavaScript property access `a.b`: throws (`.error`) when the receiver is
`undefined` or `null`; yields `undefined` (`.ok none`) when the receiver is a
primitive or an object lacking the key. -/
def jsGetField (a : Option Json) (k : String) : Except Unit (Option Json) :=
  match a with
  | none => .error ()
  | some .null => .error ()
  | some (.bool _) => .ok none
  | some (.str _) => .ok none
  | some (.num _) => .ok none
  | some (.obj fs) => .ok (jsonLookup k fs)

/-- JavaScript truthiness of a value (used by `if (json.model_loaded)`). -/
def jsTruthy : Option Json → Bool
  | none => false
  | some .null => false
  | some (.bool b) => b
  | some (.str s) => s ≠ ""
  | some (.num q) => q ≠ 0
  | some (.obj _) => true

/-- `⌊q * 10 + 1 / 2⌋` computed directly on the numerator and denominator
(`Int.fdiv` is floor division; the denominator is positive), so that the
kernel can evaluate it on concrete rationals. -/
def roundTenths (q : ℚ) : ℤ :=
  Int.fdiv (20 * q.num + q.den) (2 * q.den)

/-- ECMAScript `Number.prototype.toFixed(1)`: a leading sign for negative
receivers, then the integer `n` with `n / 10` closest to the magnitude,
ties towards the larger `n`, printed with one digit after the point. -/
def toFixed1 (q : ℚ) : String :=
  if q < 0 then
    let n := roundTenths (-q)
    "-" ++ toString (n / 10) ++ "." ++ toString (n % 10)
  else
    let n := roundTenths q
    toString (n / 10) ++ "." ++ toString (n % 10)

/-- `v.toFixed(1)`: throws unless the receiver is a number. -/
def jsToFixed1 (v : Option Json) : Except Unit String :=
  match v with
  | some (.num q) => .ok (toFixed1 q)
  | _ => .error ()

/-- The numeric value of a JavaScript value on which `.toFixed(1)` is about
to be called; throws (as the method call would) on any non-number. -/
def jsAsNum (v : Option Json) : Except Unit ℚ :=
  match v with
  | some (.num q) => .ok q
  | _ => .error ()

/-- Replace the value at a key in place, or append the binding at the end —
the semantics of adding the `timestamp` property in an object literal after
a spread. -/
def setKey (k : String) (v : Json) : List (String × Json) → List (String × Json)
  | [] => [(k, v)]
  | (k', v') :: rest => if k' = k then (k, v) :: rest else (k', v') :: setKey k v rest

/-- The own enumerable entries produced by spreading a value into an object
literal: objects contribute their fields, strings their indexed characters,
other primitives nothing. -/
def spreadFields : Json → List (String × Json)
  | .obj fs => fs
  | .str s => (s.toList.enum).map (fun p => (toString p.1, Json.str (String.mk [p.2])))
  | _ => []

/-- The value `JSON.stringify({...result, timestamp: ts})` serialises (at
tree level): the spread entries with `timestamp` set. -/
def spreadWithTimestamp (result : Json) (ts : String) : Json :=
  .obj (setKey "timestamp" (.str ts) (spreadFields result))

/-- `classList.add`: appends the class unless already present. -/
def classAdd (c : String) (cs : List String) : List String :=
  if cs.contains c then cs else cs ++ [c]

/-- Network requests the script can start. -/
inductive Request where
  | predictPost
  | statusGet
deriving Repr, DecidableEq

/-- Outcome of the `fetch` to `/predict`: rejection (network/transport
failure), or an HTTP response with a status and a body that either parses
to a JSON value or fails to parse (`none`, making `response.json()`
reject). -/
inductive FetchOutcome where
  | netError
  | resp (status : ℕ) (body : Option Json)
deriving Repr

/-- `Response.ok`: status in the inclusive range 200–299. -/
def respOk (status : ℕ) : Bool :=
  200 ≤ status && status ≤ 299

/-- Outcome of the `fetch` to `/` performed by the status probe. -/
inductive StatusOutcome where
  | netError
  | resp (ok : Bool) (body : Option Json)
deriving Repr

/-- The environment a run of the controller is exposed to. -/
structure World where
  predictOutcome : FetchOutcome
  saveFails : Bool
  timestamp : String

/-- A file as delivered by drag-drop or the file picker: declared MIME
type, byte size, and the data URL `FileReader.readAsDataURL` produces. -/
structure FileData where
  mimeType : String
  size : ℕ
  dataUrl : String

/-- State of the progress bar: `animateProgressBar` first sets the width to
`0%` and, when the timeout fires, to the target percentage. -/
structure BarAnim where
  start : ℚ
  target : ℚ
deriving Repr, DecidableEq

/-- The DOM and browser state the script reads and writes: the `hidden`
class of each panel, text contents (the prediction text stores the raw
assigned value, as `textContent = result.predicted_class` assigns whatever
the field holds), bar widths in percent, the status badge, the
`lastDiagnosis` localStorage key (as a JSON tree), and the list of network
requests started so far. -/
structure DomState where
  loadingHidden : Bool
  resultsSectionHidden : Bool
  resultCardHidden : Bool
  errorMessageHidden : Bool
  imagePreviewHidden : Bool
  previewImgSrc : Option String
  predictionText : Option Json
  confidenceText : String
  covidProbText : String
  pneumoniaProbText : String
  normalProbText : String
  covidBar : BarAnim
  pneumoniaBar : BarAnim
  normalBar : BarAnim
  errorText : String
  badgeText : String
  badgeClasses : List String
  lastDiagnosis : Option Json
  requests : List Request

/-- `showError(message)`. -/
def showError (message : String) (st : DomState) : DomState :=
  { st with
    errorText := message
    errorMessageHidden := false
    resultsSectionHidden := true }

/-- `showLoading()`. -/
def showLoading (st : DomState) : DomState :=
  { st with
    loadingHidden := false
    resultsSectionHidden := false
    resultCardHidden := true
    errorMessageHidden := true }

/-- `hideLoading()`. -/
def hideLoading (st : DomState) : DomState :=
  { st with loadingHidden := true }

/-- `validateFile(file)`: returns the updated state (an error may have been
shown) and whether the file passed. -/
def validateFile (file : FileData) (st : DomState) : DomState × Bool :=
  let allowedTypes := ["image/png", "image/jpeg", "image/jpg"]
  if ¬ allowedTypes.contains file.mimeType then
    (showError "Please select a valid image file (PNG, JPG, or JPEG)." st, false)
  else
    let maxSize := 10 * 1024 * 1024
    if file.size > maxSize then
      (showError "File size must be less than 10MB." st, false)
    else
      (st, true)

/-- `showImagePreview(file)`: the `FileReader` onload handler sets the
preview image source to the data URL and unhides the preview. -/
def showImagePreview (file : FileData) (st : DomState) : DomState :=
  { st with
    previewImgSrc := some file.dataUrl
    imagePreviewHidden := false }

/-- `animateProgressBar(bar, percentage)`: width `0%` immediately, the
target percentage when the timeout fires. -/
def animateProgressBar (percentage : ℚ) : BarAnim :=
  ⟨0, percentage⟩

/-- The generic failure message `predictXray` shows on any caught error. -/
def genericFailureMsg : String :=
  "Failed to analyze the image. Please try again."

/-- `displayResults(result)`: updates the texts and bars in source order and
unhides the result card; returns the (possibly partially mutated) state and
whether a `TypeError` was thrown partway (propagated to the caller). -/
def displayResults (result : Json) (st : DomState) : DomState × Bool :=
  match jsGetField (some result) "predicted_class" with
  | .error _ => (st, true)
  | .ok pc =>
  let st := { st with predictionText := pc }
  match jsGetField (some result) "confidence" with
  | .error _ => (st, true)
  | .ok conf =>
  match jsToFixed1 conf with
  | .error _ => (st, true)
  | .ok confStr =>
  let st := { st with confidenceText := "Confidence: " ++ confStr ++ "%" }
  match jsGetField (some result) "probabilities" with
  | .error _ => (st, true)
  | .ok probs =>
  match jsGetField probs "Covid" with
  | .error _ => (st, true)
  | .ok covidV =>
  match jsAsNum covidV with
  | .error _ => (st, true)
  | .ok covidQ =>
  let st := { st with covidProbText := toFixed1 covidQ ++ "%" }
  match jsGetField probs "Pneumonia" with
  | .error _ => (st, true)
  | .ok pneuV =>
  match jsAsNum pneuV with
  | .error _ => (st, true)
  | .ok pneuQ =>
  let st := { st with pneumoniaProbText := toFixed1 pneuQ ++ "%" }
  match jsGetField probs "Normal" with
  | .error _ => (st, true)
  | .ok normV =>
  match jsAsNum normV with
  | .error _ => (st, true)
  | .ok normQ =>
  let st := { st with normalProbText := toFixed1 normQ ++ "%" }
  let st := { st with
    covidBar := animateProgressBar covidQ
    pneumoniaBar := animateProgressBar pneuQ
    normalBar := animateProgressBar normQ }
  ({ st with resultCardHidden := false, resultsSectionHidden := false }, false)

/-- `saveLastDiagnosis(result)`: writes `{...result, timestamp}` to the
`lastDiagnosis` key; a throwing `setItem` is caught and swallowed. -/
def saveLastDiagnosis (result : Json) (w : World) (st : DomState) : DomState :=
  if w.saveFails then st
  else { st with lastDiagnosis := some (spreadWithTimestamp result w.timestamp) }

/-- `loadLastDiagnosis()`: reads and parses the cached key only to log it;
the state is unchanged on every path (read/parse failures are swallowed). -/
def loadLastDiagnosis (st : DomState) : DomState :=
  st

/-- The value `loadLastDiagnosis` would obtain from `JSON.parse` of the
`lastDiagnosis` key (storage modelled at tree level). -/
def loadLastDiagnosisValue (st : DomState) : Option Json :=
  st.lastDiagnosis

/-- `predictXray(file)`: enters the loading state, starts the `/predict`
fetch, and on the response either renders and caches the result or shows
the generic failure message; the `finally` block exits the loading state on
every path. -/
def predictXray (w : World) (st : DomState) : DomState :=
  let st := showLoading st
  let st := { st with requests := st.requests ++ [Request.predictPost] }
  let st :=
    match w.predictOutcome with
    | .netError => showError genericFailureMsg st
    | .resp status body =>
      if ¬ respOk status then showError genericFailureMsg st
      else
        match body with
        | none => showError genericFailureMsg st
        | some result =>
          match displayResults result st with
          | (st', true) => showError genericFailureMsg st'
          | (st', false) => saveLastDiagnosis result w st'
  hideLoading st

/-- `handleFiles(files)`: validates the first file and, if it passes, shows
the preview and starts the prediction. -/
def handleFiles (files : List FileData) (w : World) (st : DomState) : DomState :=
  match files with
  | [] => st
  | file :: _ =>
    match validateFile file st with
    | (st', false) => st'
    | (st', true) => predictXray w (showImagePreview file st')

/-- The body of `checkServerStatus`'s `try` block: `none` models a thrown
exception (fetch rejection, the explicit `throw` on a non-ok status, a
`json()` rejection, or a property access on a `null` body). -/
def checkServerStatusBody (o : StatusOutcome) (st : DomState) : Option DomState :=
  match o with
  | .netError => none
  | .resp ok body =>
    if ¬ ok then none
    else
      match body with
      | none => none
      | some json =>
        match jsGetField (some json) "model_loaded" with
        | .error _ => none
        | .ok v =>
          if jsTruthy v then
            some { st with
              badgeText := "Ready (model loaded)"
              badgeClasses := classAdd "text-green-600" st.badgeClasses }
          else
            some { st with
              badgeText := "Ready (no model)"
              badgeClasses := classAdd "text-yellow-600" st.badgeClasses }

/-- `checkServerStatus()`: any exception from the `try` body is caught and
the badge set to Offline; nothing propagates to the caller. -/
def checkServerStatus (o : StatusOutcome) (st : DomState) : DomState :=
  let st := { st with requests := st.requests ++ [Request.statusGet] }
  match checkServerStatusBody o st with
  | some st' => st'
  | none =>
    { st with
      badgeText := "Offline"
      badgeClasses := classAdd "text-red-600" st.badgeClasses }

/-! ### Fixtures used by concrete witnesses -/

/-- A DOM state as the diagnosis page presents it before any interaction. -/
def initState : DomState :=
  { loadingHidden := true
    resultsSectionHidden := true
    resultCardHidden := true
    errorMessageHidden := true
    imagePreviewHidden := true
    previewImgSrc := none
    predictionText := none
    confidenceText := ""
    covidProbText := ""
    pneumoniaProbText := ""
    normalProbText := ""
    covidBar := ⟨0, 0⟩
    pneumoniaBar := ⟨0, 0⟩
    normalBar := ⟨0, 0⟩
    errorText := ""
    badgeText := ""
    badgeClasses := []
    lastDiagnosis := none
    requests := [] }

/-- The mock `/predict` response body from the spec scenario. -/
def mockResult : Json :=
  .obj [("predicted_class", .str "Normal"),
        ("confidence", .num (mkRat 873 10)),
        ("probabilities", .obj
          [("Covid", .num (mkRat 42 10)),
           ("Pneumonia", .num (mkRat 85 10)),
           ("Normal", .num (mkRat 873 10))])]

/-- A world in which the prediction fetch returns HTTP 200 with the mock
body, the cache write succeeds, and the timestamp is fixed. -/
def mockWorld : World :=
  ⟨.resp 200 (some mockResult), false, "2026-10-11T00:00:00.000Z"⟩

/-- A well-parsed 2xx body that lacks the `probabilities` map. -/
def malformedResult : Json :=
  .obj [("predicted_class", .str "Normal"),
        ("confidence", .num (mkRat 873 10))]

/-! ### Helper lemmas -/

/-- Looking up a key other than the one `setKey` touched is unchanged. -/
theorem jsonLookup_setKey_ne (k t : String) (v : Json)
    (l : List (String × Json)) (h : k ≠ t) :
    jsonLookup k (setKey t v l) = jsonLookup k l := by
  induction l with
  | nil =>
    simp only [setKey, jsonLookup]
    rw [if_neg (fun ht => h ht.symm)]
  | cons hd tl ih =>
    obtain ⟨k', v'⟩ := hd
    by_cases hk : k' = t
    · subst hk
      simp only [setKey, if_pos rfl, jsonLookup]
      rw [if_neg (fun ht => h ht.symm), if_neg (fun ht => h ht.symm)]
    · simp only [setKey, if_neg hk, jsonLookup]
      by_cases hkk : k' = k
      · simp [hkk]
      · simp [hkk, ih]

/-! ### Claim theorems -/

/-- C1: a file whose declared MIME type is outside the allow-list, or whose
size exceeds 10 MiB, makes `handleFiles` show a user-visible validation
message and issue no network request (`predictXray` is never reached, so
the request log is unchanged). -/
theorem handleFiles_invalid_rejected (file : FileData) (rest : List FileData)
    (w : World) (st : DomState)
    (h : file.mimeType ∉ ["image/png", "image/jpeg", "image/jpg"] ∨
         file.size > 10 * 1024 * 1024) :
    (handleFiles (file :: rest) w st).requests = st.requests ∧
    (handleFiles (file :: rest) w st).errorMessageHidden = false ∧
    ((handleFiles (file :: rest) w st).errorText =
        "Please select a valid image file (PNG, JPG, or JPEG)." ∨
     (handleFiles (file :: rest) w st).errorText =
        "File size must be less than 10MB.") := by
  by_cases htype : file.mimeType = "image/png" ∨ file.mimeType = "image/jpeg" ∨
      file.mimeType = "image/jpg"
  · have hsz : file.size > 10 * 1024 * 1024 := by
      rcases h with h | h
      · exact absurd (by simpa using htype) h
      · exact h
    rcases htype with h1 | h1 | h1 <;>
      simp [handleFiles, validateFile, h1, hsz, showError]
  · have h1 : ¬ file.mimeType = "image/png" := fun hh => htype (Or.inl hh)
    have h2 : ¬ file.mimeType = "image/jpeg" := fun hh => htype (Or.inr (Or.inl hh))
    have h3 : ¬ file.mimeType = "image/jpg" := fun hh => htype (Or.inr (Or.inr hh))
    simp [handleFiles, validateFile, h1, h2, h3, showError]

/-- C1 witness: a text file and an oversized PNG are both rejected with the
request log untouched. -/
theorem handleFiles_invalid_rejected_witness :
    ((⟨"text/plain", 100, "d"⟩ : FileData).mimeType ∉
        ["image/png", "image/jpeg", "image/jpg"] ∨
      (⟨"text/plain", 100, "d"⟩ : FileData).size > 10 * 1024 * 1024) ∧
    (handleFiles [⟨"text/plain", 100, "d"⟩] mockWorld initState).requests =
        initState.requests ∧
    (handleFiles [⟨"text/plain", 100, "d"⟩] mockWorld initState).errorMessageHidden = false ∧
    (handleFiles [⟨"image/png", 10 * 1024 * 1024 + 1, "d"⟩] mockWorld initState).requests =
        initState.requests := by
  refine ⟨by decide, ?_, ?_, ?_⟩
  · exact (handleFiles_invalid_rejected ⟨"text/plain", 100, "d"⟩ [] mockWorld initState
      (by left; decide)).1
  · exact (handleFiles_invalid_rejected ⟨"text/plain", 100, "d"⟩ [] mockWorld initState
      (by left; decide)).2.1
  · exact (handleFiles_invalid_rejected ⟨"image/png", 10 * 1024 * 1024 + 1, "d"⟩ [] mockWorld
      initState (by right; decide)).1

/-- C4: every exit path of `predictXray` runs the `finally` block, so the
loading element ends hidden. -/
theorem predictXray_always_exits_loading (w : World) (st : DomState) :
    (predictXray w st).loadingHidden = true :=
  rfl

/-- C5: entering the loading state hides any prior result card and error
message while the loading indicator and results section become visible. -/
theorem showLoading_hides_prior (st : DomState) :
    (showLoading st).resultCardHidden = true ∧
    (showLoading st).errorMessageHidden = true ∧
    (showLoading st).loadingHidden = false ∧
    (showLoading st).resultsSectionHidden = false :=
  ⟨rfl, rfl, rfl, rfl⟩

/-- C9: with an allowed MIME type, a file of exactly 10 MiB passes
`validateFile` — the size check rejects only strictly larger files, whose
rejection message nevertheless reads "less than 10MB". -/
theorem validateFile_boundary (st : DomState) (f : FileData)
    (htype : f.mimeType ∈ ["image/png", "image/jpeg", "image/jpg"]) :
    (f.size = 10 * 1024 * 1024 → validateFile f st = (st, true)) ∧
    (f.size ≤ 10 * 1024 * 1024 → (validateFile f st).2 = true) ∧
    (f.size > 10 * 1024 * 1024 →
      (validateFile f st).2 = false ∧
      (validateFile f st).1.errorText = "File size must be less than 10MB.") := by
  have htype' : f.mimeType = "image/png" ∨ f.mimeType = "image/jpeg" ∨
      f.mimeType = "image/jpg" := by simpa using htype
  refine ⟨fun hsz => ?_, fun hsz => ?_, fun hsz => ?_⟩
  · rcases htype' with h1 | h1 | h1 <;> simp [validateFile, h1, hsz]
  · rcases htype' with h1 | h1 | h1 <;> simp [validateFile, h1, Nat.not_lt.mpr hsz]
  · rcases htype' with h1 | h1 | h1 <;> simp [validateFile, h1, hsz, showError]

/-- C9 witness: a PNG of exactly 10 MiB is accepted. -/
theorem validateFile_boundary_witness :
    (⟨"image/png", 10 * 1024 * 1024, "d"⟩ : FileData).mimeType ∈
        ["image/png", "image/jpeg", "image/jpg"] ∧
    validateFile ⟨"image/png", 10 * 1024 * 1024, "d"⟩ initState = (initState, true) :=
  ⟨by decide,
   (validateFile_boundary initState ⟨"image/png", 10 * 1024 * 1024, "d"⟩ (by decide)).1 rfl⟩

/-- C2: a 2xx `/predict` response of the expected shape makes
`displayResults` set the prediction text to the predicted class, the
confidence text to "Confidence: <one decimal>%", each probability row to
its value at one decimal with a percent sign, and animate each bar from 0
to its probability percentage, with the result card shown. -/
theorem predictXray_success_displays (w : World) (st : DomState)
    (pc : String) (status : ℕ) (c cv pn nm : ℚ)
    (hok : respOk status = true)
    (hbody : w.predictOutcome = .resp status (some (.obj
      [("predicted_class", .str pc), ("confidence", .num c),
       ("probabilities", .obj
         [("Covid", .num cv), ("Pneumonia", .num pn), ("Normal", .num nm)])]))) :
    (predictXray w st).predictionText = some (.str pc) ∧
    (predictXray w st).confidenceText = "Confidence: " ++ toFixed1 c ++ "%" ∧
    (predictXray w st).covidProbText = toFixed1 cv ++ "%" ∧
    (predictXray w st).pneumoniaProbText = toFixed1 pn ++ "%" ∧
    (predictXray w st).normalProbText = toFixed1 nm ++ "%" ∧
    (predictXray w st).covidBar = animateProgressBar cv ∧
    (predictXray w st).pneumoniaBar = animateProgressBar pn ∧
    (predictXray w st).normalBar = animateProgressBar nm ∧
    (predictXray w st).resultCardHidden = false ∧
    (predictXray w st).resultsSectionHidden = false := by
  by_cases hs : w.saveFails = true <;>
    simp [predictXray, hbody, hok, hs, displayResults, jsGetField, jsonLookup,
      jsToFixed1, jsAsNum, showLoading, hideLoading, saveLastDiagnosis,
      animateProgressBar]

/-- C2 witness: the spec's mock response yields "Normal", "Confidence:
87.3%", and bars animated to 4.2, 8.5 and 87.3 percent. -/
theorem predictXray_success_displays_witness :
    respOk 200 = true ∧
    (predictXray mockWorld initState).predictionText = some (.str "Normal") ∧
    (predictXray mockWorld initState).confidenceText = "Confidence: 87.3%" ∧
    (predictXray mockWorld initState).covidProbText = "4.2%" ∧
    (predictXray mockWorld initState).pneumoniaProbText = "8.5%" ∧
    (predictXray mockWorld initState).normalProbText = "87.3%" ∧
    (predictXray mockWorld initState).covidBar = ⟨0, mkRat 42 10⟩ ∧
    (predictXray mockWorld initState).pneumoniaBar = ⟨0, mkRat 85 10⟩ ∧
    (predictXray mockWorld initState).normalBar = ⟨0, mkRat 873 10⟩ ∧
    (predictXray mockWorld initState).resultCardHidden = false := by
  have h := predictXray_success_displays mockWorld initState "Normal" 200
    (mkRat 873 10) (mkRat 42 10) (mkRat 85 10) (mkRat 873 10) (by decide) rfl
  obtain ⟨h1, h2, h3, h4, h5, h6, h7, h8, h9, -⟩ := h
  refine ⟨by decide, h1, ?_, ?_, ?_, ?_, ?_, ?_, ?_, h9⟩
  · rw [h2]; decide
  · rw [h3]; decide
  · rw [h4]; decide
  · rw [h5]; decide
  · rw [h6]; decide
  · rw [h7]; decide
  · rw [h8]; decide

/-- C3: a network failure or a non-2xx status makes `predictXray` show the
generic failure message and hide the results panel; the result card stays
hidden. -/
theorem predictXray_failure_shows_error (w : World) (st : DomState)
    (h : w.predictOutcome = .netError ∨
         ∃ status body, w.predictOutcome = .resp status body ∧ respOk status = false) :
    (predictXray w st).errorText = genericFailureMsg ∧
    (predictXray w st).errorMessageHidden = false ∧
    (predictXray w st).resultsSectionHidden = true ∧
    (predictXray w st).resultCardHidden = true := by
  rcases h with h | ⟨status, body, h, hbad⟩
  · simp [predictXray, h, showLoading, hideLoading, showError]
  · simp [predictXray, h, hbad, showLoading, hideLoading, showError]

/-- C3 witness: an HTTP 500 response shows the generic failure message and
suppresses the results panel. -/
theorem predictXray_failure_shows_error_witness :
    ((⟨.resp 500 none, false, "t"⟩ : World).predictOutcome = .netError ∨
      ∃ status body, (⟨.resp 500 none, false, "t"⟩ : World).predictOutcome =
          .resp status body ∧ respOk status = false) ∧
    (predictXray ⟨.resp 500 none, false, "t"⟩ initState).errorText = genericFailureMsg ∧
    (predictXray ⟨.resp 500 none, false, "t"⟩ initState).errorMessageHidden = false ∧
    (predictXray ⟨.resp 500 none, false, "t"⟩ initState).resultsSectionHidden = true := by
  have h := predictXray_failure_shows_error ⟨.resp 500 none, false, "t"⟩ initState
    (Or.inr ⟨500, none, rfl, by decide⟩)
  exact ⟨Or.inr ⟨500, none, rfl, by decide⟩, h.1, h.2.1, h.2.2.1⟩

/-- C6: writing a prediction result with `saveLastDiagnosis` and re-reading
the `lastDiagnosis` key (as `loadLastDiagnosis` parses it) yields the same
`predicted_class`, `confidence` and `probabilities` values; only the
appended `timestamp` differs. -/
theorem saveLoad_roundtrip (fs : List (String × Json)) (w : World) (st : DomState)
    (hsave : w.saveFails = false) :
    ∃ d, loadLastDiagnosisValue (saveLastDiagnosis (.obj fs) w st) = some d ∧
      jsGetField (some d) "predicted_class" =
        jsGetField (some (.obj fs)) "predicted_class" ∧
      jsGetField (some d) "confidence" = jsGetField (some (.obj fs)) "confidence" ∧
      jsGetField (some d) "probabilities" =
        jsGetField (some (.obj fs)) "probabilities" := by
  refine ⟨spreadWithTimestamp (.obj fs) w.timestamp, ?_, ?_, ?_, ?_⟩
  · simp [loadLastDiagnosisValue, saveLastDiagnosis, hsave]
  all_goals
    simp only [spreadWithTimestamp, spreadFields, jsGetField]
    exact congrArg Except.ok (jsonLookup_setKey_ne _ _ _ _ (by decide))

/-- C6 witness: round-tripping the mock prediction preserves all three
fields. -/
theorem saveLoad_roundtrip_witness :
    mockWorld.saveFails = false ∧
    (∃ d, loadLastDiagnosisValue
        (saveLastDiagnosis (.obj [("predicted_class", Json.str "Normal"),
          ("confidence", Json.num (mkRat 873 10)),
          ("probabilities", Json.obj
            [("Covid", Json.num (mkRat 42 10)),
             ("Pneumonia", Json.num (mkRat 85 10)),
             ("Normal", Json.num (mkRat 873 10))])]) mockWorld initState) = some d ∧
      jsGetField (some d) "predicted_class" = .ok (some (Json.str "Normal")) ∧
      jsGetField (some d) "confidence" = .ok (some (Json.num (mkRat 873 10)))) := by
  refine ⟨rfl, ?_⟩
  obtain ⟨d, hd, h1, h2, h3⟩ := saveLoad_roundtrip
    [("predicted_class", Json.str "Normal"),
     ("confidence", Json.num (mkRat 873 10)),
     ("probabilities", Json.obj
       [("Covid", Json.num (mkRat 42 10)),
        ("Pneumonia", Json.num (mkRat 85 10)),
        ("Normal", Json.num (mkRat 873 10))])] mockWorld initState rfl
  refine ⟨d, hd, ?_, ?_⟩
  · rw [h1]; rfl
  · rw [h2]; rfl

/-- C7: the cache is written only by a successful prediction: failed
requests leave the previously cached value untouched; a well-formed 2xx
response overwrites the key with the result plus the capture timestamp
when the write succeeds, and when the write itself throws the failure is
swallowed without disturbing the displayed result. -/
theorem lastDiagnosis_cache_discipline (w : World) (st : DomState) :
    ((w.predictOutcome = .netError ∨
        ∃ s b, w.predictOutcome = .resp s b ∧ respOk s = false) →
      (predictXray w st).lastDiagnosis = st.lastDiagnosis) ∧
    (∀ pc status c cv pn nm,
      w.predictOutcome = .resp status (some (.obj
        [("predicted_class", .str pc), ("confidence", .num c),
         ("probabilities", .obj
           [("Covid", .num cv), ("Pneumonia", .num pn), ("Normal", .num nm)])])) →
      respOk status = true →
      (w.saveFails = false →
        (predictXray w st).lastDiagnosis = some (spreadWithTimestamp (.obj
          [("predicted_class", .str pc), ("confidence", .num c),
           ("probabilities", .obj
             [("Covid", .num cv), ("Pneumonia", .num pn), ("Normal", .num nm)])])
          w.timestamp)) ∧
      (w.saveFails = true →
        (predictXray w st).lastDiagnosis = st.lastDiagnosis ∧
        (predictXray w st).resultCardHidden = false ∧
        (predictXray w st).predictionText = some (.str pc))) := by
  constructor
  · intro h
    rcases h with h | ⟨s, b, h, hbad⟩
    · simp [predictXray, h, showLoading, hideLoading, showError]
    · simp [predictXray, h, hbad, showLoading, hideLoading, showError]
  · intro pc status c cv pn nm hbody hok
    constructor
    · intro hsave
      simp [predictXray, hbody, hok, hsave, displayResults, jsGetField, jsonLookup,
        jsToFixed1, jsAsNum, showLoading, hideLoading, saveLastDiagnosis]
    · intro hsave
      refine ⟨?_, ?_, ?_⟩ <;>
        simp [predictXray, hbody, hok, hsave, displayResults, jsGetField, jsonLookup,
          jsToFixed1, jsAsNum, showLoading, hideLoading, saveLastDiagnosis]

/-- C7 witness: a 500 response leaves the cache untouched; the mock success
overwrites it; a failing write leaves both cache and displayed result
intact. -/
theorem lastDiagnosis_cache_discipline_witness :
    (predictXray ⟨.resp 500 none, false, "t"⟩ initState).lastDiagnosis =
        initState.lastDiagnosis ∧
    (predictXray mockWorld initState).lastDiagnosis =
        some (spreadWithTimestamp mockResult mockWorld.timestamp) ∧
    (predictXray ⟨.resp 200 (some mockResult), true, "t"⟩ initState).lastDiagnosis =
        initState.lastDiagnosis ∧
    (predictXray ⟨.resp 200 (some mockResult), true, "t"⟩ initState).resultCardHidden =
        false := by
  refine ⟨?_, ?_, ?_, ?_⟩
  · exact (lastDiagnosis_cache_discipline ⟨.resp 500 none, false, "t"⟩ initState).1
      (Or.inr ⟨500, none, rfl, by decide⟩)
  · exact ((lastDiagnosis_cache_discipline mockWorld initState).2 "Normal" 200
      (mkRat 873 10) (mkRat 42 10) (mkRat 85 10) (mkRat 873 10) rfl (by decide)).1 rfl
  · exact (((lastDiagnosis_cache_discipline ⟨.resp 200 (some mockResult), true, "t"⟩
      initState).2 "Normal" 200 (mkRat 873 10) (mkRat 42 10) (mkRat 85 10) (mkRat 873 10)
      rfl (by decide)).2 rfl).1
  · exact (((lastDiagnosis_cache_discipline ⟨.resp 200 (some mockResult), true, "t"⟩
      initState).2 "Normal" 200 (mkRat 873 10) (mkRat 42 10) (mkRat 85 10) (mkRat 873 10)
      rfl (by decide)).2 rfl).2.1

/-- C8: the status probe always leaves the badge in one of the three states
(model loaded, no model, offline), and every probe failure — fetch
rejection, non-ok status, or an unparseable body — reads "Offline"; the
exception never reaches the caller (`checkServerStatus` is total and the
`try` body's failure is handled in the `catch`). -/
theorem checkServerStatus_badge (o : StatusOutcome) (st : DomState) :
    ((checkServerStatus o st).badgeText = "Ready (model loaded)" ∨
     (checkServerStatus o st).badgeText = "Ready (no model)" ∨
     (checkServerStatus o st).badgeText = "Offline") ∧
    ((o = .netError ∨ (∃ b, o = .resp false b) ∨ (∃ k, o = .resp k none)) →
      (checkServerStatus o st).badgeText = "Offline") := by
  constructor
  · rcases o with _ | ⟨ok, body⟩
    · simp [checkServerStatus, checkServerStatusBody]
    · cases ok
      · simp [checkServerStatus, checkServerStatusBody]
      · rcases body with _ | j
        · simp [checkServerStatus, checkServerStatusBody]
        · rcases j with _ | b | s | q | fs
          · simp [checkServerStatus, checkServerStatusBody, jsGetField]
          · by_cases hb : b = true <;>
              simp [checkServerStatus, checkServerStatusBody, jsGetField, jsTruthy, hb]
          · by_cases hs : s = "" <;>
              simp [checkServerStatus, checkServerStatusBody, jsGetField, jsTruthy, hs]
          · by_cases hq : q = 0 <;>
              simp [checkServerStatus, checkServerStatusBody, jsGetField, jsTruthy, hq]
          · by_cases hT : jsTruthy (jsonLookup "model_loaded" fs) = true <;>
              simp [checkServerStatus, checkServerStatusBody, jsGetField, hT]
  · intro h
    rcases h with h | ⟨b, h⟩ | ⟨k, h⟩
    · simp [h, checkServerStatus, checkServerStatusBody]
    · simp [h, checkServerStatus, checkServerStatusBody]
    · cases k <;> simp [h, checkServerStatus, checkServerStatusBody]

/-- C8 witness: a rejected probe fetch leaves the badge reading "Offline". -/
theorem checkServerStatus_badge_witness :
    ((StatusOutcome.netError = StatusOutcome.netError ∨
        (∃ b, StatusOutcome.netError = .resp false b) ∨
        (∃ k, StatusOutcome.netError = .resp k none))) ∧
    (checkServerStatus .netError initState).badgeText = "Offline" :=
  ⟨Or.inl rfl, (checkServerStatus_badge .netError initState).2 (Or.inl rfl)⟩

/-- C10: a 2xx response whose parsed body makes the rendering throw (for
instance a missing `probabilities` map) is caught by `predictXray`'s
handler: the user sees the same generic failure message as for a network
error and the loading state still exits; the page does not crash (the
embedding is a total function). -/
theorem predictXray_malformed_body (w : World) (st : DomState) (status : ℕ)
    (result : Json)
    (hbody : w.predictOutcome = .resp status (some result))
    (hok : respOk status = true)
    (hthrow : ∀ s, (displayResults result s).2 = true) :
    (predictXray w st).errorText = genericFailureMsg ∧
    (predictXray w st).errorMessageHidden = false ∧
    (predictXray w st).loadingHidden = true ∧
    (predictXray w st).resultsSectionHidden = true := by
  simp only [predictXray, hbody]
  rw [if_neg (by simp [hok])]
  split
  · rename_i st2 hmatch
    simp [showError, hideLoading]
  · rename_i st2 hmatch
    have hs2 := congrArg Prod.snd hmatch
    rw [hthrow] at hs2
    simp at hs2

/-- C10 witness: a 200 response lacking the `probabilities` map shows the
generic failure message and still exits the loading state. -/
theorem predictXray_malformed_body_witness :
    (displayResults malformedResult initState).2 = true ∧
    (predictXray ⟨.resp 200 (some malformedResult), false, "t"⟩ initState).errorText =
        genericFailureMsg ∧
    (predictXray ⟨.resp 200 (some malformedResult), false, "t"⟩ initState).errorMessageHidden =
        false ∧
    (predictXray ⟨.resp 200 (some malformedResult), false, "t"⟩ initState).loadingHidden =
        true := by
  have h := predictXray_malformed_body ⟨.resp 200 (some malformedResult), false, "t"⟩
    initState 200 malformedResult rfl (by decide) (fun _ => rfl)
  exact ⟨rfl, h.1, h.2.1, h.2.2.1⟩
